import Mathlib

/-!
Shallow embedding of the BareTread product-image-scraper pipeline
(`src/shoe-image-api`): the structural validator, the Gemini semantic
validator, the disk cache, the image normalizer, and the scraper
orchestrator, together with theorems settling the frozen claims.

Conventions of the embedding:
* `Buffer`s are modelled by their decoded view (`Img`): sharp metadata
  (width/height/channels, each possibly absent) plus a pixel function.
* JavaScript `undefined` on an object field is an `Option` that is `none`;
  JS truthiness on numbers/strings/booleans is made explicit (`jsBool`,
  option matches with a zero test).
* Floating point arithmetic of the source (percentages, random draws) is
  modelled with exact rational arithmetic.
* Asynchronous calls to the network, the vision model and the image source
  are oracles supplied in an environment record; the filesystem is an
  explicit `CacheState` threaded through the functions that touch it.
-/

namespace ProductImageScraper

/-- One decoded pixel: the first three channels of the raw sample. -/
structure RGB where
  r : Nat
  g : Nat
  b : Nat
  deriving DecidableEq, Repr

/-- A downloaded buffer as sharp exposes it: optional metadata fields and
the pixel grid. `width?`/`height?`/`channels?` are `none` when sharp cannot
decode the corresponding metadata entry. -/
structure Img where
  width? : Option Nat
  height? : Option Nat
  channels? : Option Nat
  pixel : Nat → Nat → RGB

/-- JS truthiness of an optional boolean field (`undefined` is falsy). -/
def jsBool (o : Option Bool) : Bool :=
  match o with
  | some b => b
  | none => false

/-! ### Shared border heuristic

`ValidatorService.validateImage` (validator.service.ts) and
`GeminiValidatorService.isBackgroundWhite` (gemini-validator.service.ts)
contain a textually identical core: border-strip sampling, the near-white
pixel test `r > 240 && g > 240 && b > 240`, and the `> 95` percent
threshold. That core is embedded once, below; the two entry points differ
only in their metadata guards and are defined separately afterwards. -/

/-- `Math.min(5, Math.floor(width / 10), Math.floor(height / 10))`. -/
def borderSize (w h : Nat) : Nat :=
  min 5 (min (w / 10) (h / 10))

/-- The near-white pixel test: every channel strictly above 240. -/
def isWhitePixel (p : RGB) : Bool :=
  decide (240 < p.r) && decide (240 < p.g) && decide (240 < p.b)

/-- The pixels of one extracted region, row by row (the order sharp's raw
buffer delivers them in). -/
def regionPixels (px : Nat → Nat → RGB) (left top w h : Nat) : List RGB :=
  (List.range h).flatMap (fun dy => (List.range w).map (fun dx => px (left + dx) (top + dy)))

/-- The four border strips, in the order the source iterates them:
top, bottom, left, right. -/
def borderSamples (px : Nat → Nat → RGB) (w h b : Nat) : List RGB :=
  regionPixels px 0 0 w b ++ regionPixels px 0 (h - b) w b ++
    regionPixels px 0 0 b h ++ regionPixels px (w - b) 0 b h

/-- `whitePixelCount` accumulated over the four strips. -/
def whiteCount (px : Nat → Nat → RGB) (w h b : Nat) : Nat :=
  ((borderSamples px w h b).filter isWhitePixel).length

/-- `totalPixelCount` accumulated over the four strips. -/
def totalCount (px : Nat → Nat → RGB) (w h b : Nat) : Nat :=
  (borderSamples px w h b).length

/-- The body shared by both validators once the metadata guards passed:
fail when the border thickness is zero, otherwise require the near-white
percentage to strictly exceed 95 (`white / total * 100 > 95`, stated
without division). -/
def borderCheck (px : Nat → Nat → RGB) (w h : Nat) : Bool :=
  let b := borderSize w h
  if b = 0 then false
  else decide (95 * totalCount px w h b < 100 * whiteCount px w h b)

namespace Validator

/-- `ValidatorService.validateImage`: destructures `width`, `height` and
`channels` from the metadata and fails when any is missing or zero
(JS `!width || !height || !channels`), then runs the border check. -/
def validateImage (img : Img) : Bool :=
  match img.width?, img.height?, img.channels? with
  | some w, some h, some c =>
      if w = 0 || h = 0 || c = 0 then false
      else borderCheck img.pixel w h
  | _, _, _ => false

end Validator

namespace Gemini

/-- `GeminiValidationResult` as the code actually handles it: objects with
possibly-missing fields (the bypass dummies of the orchestrator carry an
`isShoe` field and lack `usable`/`brand`/`keywords`/`rotate`). -/
structure GeminiValidationResult where
  usable? : Option Bool := none
  brand? : Option String := none
  model : String
  keywords? : Option (List String) := none
  rotate? : Option Bool := none
  isShoe? : Option Bool := none
  deriving DecidableEq, Repr

/-- Outcome of one awaited vision-model call (the promise built by
`generateContentWithTimeout` plus JSON parsing): it resolved to a parsed
verdict object, or it threw — a network/API fault, the hard-timeout
rejection, or a `JSON.parse` failure, all of which land in the same
`catch` block of `validateImage`. -/
inductive VisionOutcome where
  | ok (json : GeminiValidationResult)
  | timeout
  | fault
  deriving DecidableEq, Repr

/-- `GeminiValidatorService.isBackgroundWhite`: destructures only `width`
and `height` (no `channels` guard, unlike `ValidatorService`), then runs
the same border check. -/
def isBackgroundWhite (img : Img) : Bool :=
  match img.width?, img.height? with
  | some w, some h =>
      if w = 0 || h = 0 then false
      else borderCheck img.pixel w h
  | _, _ => false

/-- `GeminiValidatorService.validateImage`. Returns the verdict option the
caller sees together with a flag recording whether the external vision
model was contacted. Step 1 is the local white-background check — on
failure the function returns `null` without any external call. Step 2
awaits the vision call: every thrown error (timeout included) is caught
and becomes `null`; a parsed verdict gets `rotate` defaulted to `false`
and is returned iff `usable` is truthy. -/
def validateImage (img : Img) (shoeModel : String) (call : VisionOutcome) :
    Option GeminiValidationResult × Bool :=
  let _ := shoeModel
  if isBackgroundWhite img = false then (none, false)
  else
    match call with
    | .timeout => (none, true)
    | .fault => (none, true)
    | .ok json =>
        let json' := { json with rotate? := some (jsBool json.rotate?) }
        if jsBool json'.usable? = false then (none, true) else (some json', true)

end Gemini

namespace Cache

/-- A character that the key regex `[^a-z0-9]` does NOT match (i.e. a
lowercase ASCII letter or a digit). -/
def isAlnumLower (c : Char) : Bool :=
  ('a' ≤ c && c ≤ 'z') || ('0' ≤ c && c ≤ '9')

/-- `CacheService.normalizeKey`:
`model.toLowerCase().replace(/[^a-z0-9]/g, '_')`. The regex matches one
character at a time, so each non-alphanumeric character is replaced by its
own underscore. (`Char.toLower` models `toLowerCase` on ASCII.) -/
def normalizeKey (model : String) : String :=
  let lowered := model.data.map Char.toLower
  String.mk (lowered.map (fun c => if isAlnumLower c then c else '_'))

/-- Replace every maximal run of `p`-characters by the single character
`sep` (the semantics of a JS `replace(/X+/g, sep)`). The flag tracks
whether the previous character was part of such a run. -/
def collapseRunsAux (p : Char → Bool) (sep : Char) : Bool → List Char → List Char
  | _, [] => []
  | prevInRun, c :: rest =>
      if p c then
        if prevInRun then collapseRunsAux p sep true rest
        else sep :: collapseRunsAux p sep true rest
      else c :: collapseRunsAux p sep false rest

/-- Entry point of `collapseRunsAux`: no run is open at the start. -/
def collapseRuns (p : Char → Bool) (sep : Char) (cs : List Char) : List Char :=
  collapseRunsAux p sep false cs

/-- The characters JS `\s` matches that can occur in the strings of this
development. -/
def jsWhitespace (c : Char) : Bool :=
  c = ' ' || c = '\t' || c = '\n' || c = '\r'

/-- A character kept by the filename regex `[^a-z0-9-]` replacement
(i.e. not removed): lowercase alphanumeric or hyphen. -/
def isSlugChar (c : Char) : Bool :=
  isAlnumLower c || c = '-'

/-- JS string interpolation of a possibly-undefined field: `undefined`
renders as the string "undefined". -/
def jsInterp (o : Option String) : String :=
  match o with
  | some s => s
  | none => "undefined"

/-- `CacheService.generateSeoFilename`: builds
"`${brand} ${model} side view`", lowercases it, collapses whitespace runs
to single hyphens (`replace(/\s+/g, '-')`), strips every character outside
`[a-z0-9-]`, and appends ".jpg". -/
def generateSeoFilename (geminiResult : Gemini.GeminiValidationResult) : String :=
  let raw := jsInterp geminiResult.brand? ++ " " ++ geminiResult.model ++ " side view"
  let lowered := raw.data.map Char.toLower
  let hyphenated := collapseRuns jsWhitespace '-' lowered
  String.mk (hyphenated.filter isSlugChar) ++ ".jpg"

/-- The cache-relevant filesystem state: the in-memory index map, the set
of image files present in the cache directory, and the contents of the
persisted `index.json`. -/
structure CacheState where
  index : List (String × String)
  files : List String
  indexOnDisk : List (String × String)
  deriving DecidableEq, Repr

/-- Map update `this.cacheIndex.set(key, filename)`. -/
def setKey (k v : String) (l : List (String × String)) : List (String × String) :=
  (k, v) :: l.filter (fun e => e.1 ≠ k)

/-- Map lookup `this.cacheIndex.get(key)`. -/
def getKey (k : String) (l : List (String × String)) : Option String :=
  (l.find? (fun e => e.1 = k)).map (fun e => e.2)

/-- `fs.writeFileSync` of an image file: the filename is afterwards
present in the cache directory. -/
def writeFile (fn : String) (files : List String) : List String :=
  if fn ∈ files then files else fn :: files

/-- `CacheService.getCachedImage`: normalize the requested model, look the
key up in the index, and answer a hit only when the referenced file still
exists on disk. -/
def getCachedImage (st : CacheState) (model : String) : Option String :=
  let key := normalizeKey model
  match getKey key st.index with
  | some filename =>
      if filename ∈ st.files then some ("/images/" ++ filename) else none
  | none => none

/-- `CacheService.saveImage`: derive the SEO filename from the verdict's
brand/model, write the image file, update the index under
`normalizeKey(geminiResult.model)` — the verdict's model field — and
persist the index file synchronously before returning the public path. -/
def saveImage (geminiResult : Gemini.GeminiValidationResult) (st : CacheState) :
    String × CacheState :=
  let filename := generateSeoFilename geminiResult
  let files' := writeFile filename st.files
  let key := normalizeKey geminiResult.model
  let index' := setKey key filename st.index
  ("/images/" ++ filename, { index := index', files := files', indexOnDisk := index' })

/-- `generateIntermediateFilename` (cache service revision with debug
artifacts): `${normalizedModelKey}-${stage.toUpperCase().replace(/[^A-Z0-9-]/g, '')}.jpg`. -/
def generateIntermediateFilename (normalizedModelKey stage : String) : String :=
  let safeStage := (stage.data.map Char.toUpper).filter
    (fun c => ('A' ≤ c && c ≤ 'Z') || ('0' ≤ c && c ≤ '9') || c = '-')
  normalizedModelKey ++ "-" ++ String.mk safeStage ++ ".jpg"

/-- `CacheService.saveIntermediateImage`: best-effort debug write keyed by
normalized query + stage tag; writes the file but never touches the index. -/
def saveIntermediateImage (modelInput stage : String) (st : CacheState) :
    Option String × CacheState :=
  let filename := generateIntermediateFilename (normalizeKey modelInput) stage
  (some ("/images/" ++ filename),
    { st with files := writeFile filename st.files })

end Cache

namespace Processor

/-- One sharp pipeline operation of `ImageProcessorService.makeUnique`, in
the order it is chained onto the image. `mirrorFlip` stands for the
`image.flip()` call of the cosmetic branch, `rotateSmall`/`brighten` carry
the random parameter as an exact rational, and `withExif` records the
metadata injected at the end. -/
inductive ImgOp where
  | rotate90
  | mirrorFlip
  | rotateSmall (deg : ℚ)
  | brighten (factor : ℚ)
  | withExif (copyright artist description userComment : String)
  deriving DecidableEq, Repr

/-- Claim-side classification: the operations the specification calls the
"cosmetic perturbation" (step b), as opposed to the orientation correction
(step a) and the metadata embedding (step c). -/
def isCosmeticPerturbation : ImgOp → Bool
  | .mirrorFlip => true
  | .rotateSmall _ => true
  | .brighten _ => true
  | _ => false

/-- `ImageProcessorService.makeUnique`, as the list of sharp operations it
chains. `r1` models the `Math.random()` draw selecting the transformation
type; `r2` models the draw inside the chosen case (the rotation degree or
the brightness factor). The aspect-ratio comparison
`metadata.height > metadata.width * 1.2` is stated exactly over the
integer dimensions as `6 * w < 5 * h`. -/
def makeUnique (img : Img) (geminiResult : Gemini.GeminiValidationResult)
    (r1 r2 : ℚ) : List ImgOp :=
  let rotateFlag := jsBool geminiResult.rotate?
  let needsAutoRotate :=
    !rotateFlag &&
      (match img.width?, img.height? with
       | some w, some h => decide (w ≠ 0) && decide (h ≠ 0) && decide (6 * w < 5 * h)
       | _, _ => false)
  let orientation : List ImgOp :=
    if rotateFlag || needsAutoRotate then [ImgOp.rotate90] else []
  let transformationType := ⌊r1 * 3⌋₊
  let perturbation : List ImgOp :=
    if transformationType = 0 then [ImgOp.mirrorFlip]
    else if transformationType = 1 then [ImgOp.rotateSmall ((r2 - 1/2) * 2)]
    else if transformationType = 2 then [ImgOp.brighten (1 + (r2 * (1/10) - 1/20))]
    else []
  let brand := Cache.jsInterp geminiResult.brand?
  let userComment :=
    match geminiResult.keywords? with
    | some (k :: ks) => String.intercalate ", " (k :: ks)
    | _ => brand ++ ", " ++ geminiResult.model
  orientation ++ perturbation ++
    [ImgOp.withExif "BareTread.com" "BareTread"
      ("Official product photo of " ++ brand ++ " " ++ geminiResult.model)
      userComment]

end Processor

namespace Scraper

/-- The configuration slice `config.scraperService` consumed by the
orchestrator's control flow (the delay values only feed `setTimeout` and
are not modelled). -/
structure Config where
  downloadMaxRetries : Nat
  geminiMaxRetries : Nat
  bypassGeminiOnFailure : Bool
  deriving DecidableEq, Repr

/-- Outcome of one awaited `axios.get`: decoded bytes, or a thrown
error (network fault, timeout, non-2xx). -/
inductive DownloadOutcome where
  | ok (buf : Img)
  | fail (msg : String)

/-- Outcome of one awaited semantic-validation attempt as the retry loop
observes it: the promise resolved with a verdict-or-null, or it threw. -/
inductive SemAttempt where
  | returns (r : Option Gemini.GeminiValidationResult)
  | throws (msg : String)

/-- The external world of one `getShoeImage` run: the image source's
answer, the per-URL/per-attempt download oracle, and the per-URL/
per-attempt vision-call oracle consumed by the Gemini validator. -/
structure Env where
  sourceName : String
  search : Except String (List String)
  download : String → Nat → DownloadOutcome
  vision : String → Nat → Gemini.VisionOutcome

/-- Observable work performed by one run: image-source searches issued,
downloads awaited, and semantic-validation attempts made. -/
structure Trace where
  searches : Nat
  downloads : Nat
  geminiAttempts : Nat
  deriving DecidableEq, Repr

/-- The `ScrapingResult` shape used by the current scraper revision. -/
structure ScrapingResult where
  success : Bool
  imageUrl? : Option String := none
  localPath? : Option String := none
  source? : Option String := none
  error? : Option String := none
  deriving DecidableEq, Repr

/-- How the Gemini retry loop of `downloadAndValidate` ends. -/
inductive SemExit where
  | broke (r : Option Gemini.GeminiValidationResult)
  | errored (msg : String)
  deriving DecidableEq, Repr

/-- The dummy success result synthesized by the bypass branch:
`{ model: model, entities: [], themes: [], isShoe: true, shoeType: ... }`
(no `usable`, `brand`, `keywords` or `rotate` fields). -/
def bypassDummy (model : String) : Gemini.GeminiValidationResult :=
  { model := model, isShoe? := some true }

/-- The Gemini retry loop (scraper.service.ts, inner `for`): a resolved
attempt breaks out — with a verdict on success and with `null` on an
explicit rejection (the code treats `null` as a content judgment and does
not retry it); a thrown attempt backs off and retries until the last
attempt, which either synthesizes the bypass dummy or returns the
validation-unavailable error. Returns the loop exit together with the
number of attempts awaited. `remaining` counts the attempts still allowed;
`idx` is the 1-based attempt counter fed to the oracle. -/
def semLoop (oracle : Nat → SemAttempt) (bypass : Bool)
    (dummy : Gemini.GeminiValidationResult) (maxRetries : Nat) :
    Nat → Nat → SemExit × Nat
  | _, 0 => (.broke none, 0)
  | idx, remaining + 1 =>
      match oracle idx with
      | .returns r => (.broke r, 1)
      | .throws msg =>
          if remaining = 0 then
            if bypass then (.broke (some dummy), 1)
            else
              (.errored ("LLM validation failed after " ++ toString maxRetries ++
                " attempts: " ++ msg), 1)
          else
            let (e, n) := semLoop oracle bypass dummy maxRetries (idx + 1) remaining
            (e, n + 1)

/-- The per-candidate download/validate state machine
(`ScraperService.downloadAndValidate`, current revision), written as a
recursion over the remaining download attempts. On decoded bytes it runs
the structural validator (a failure returns immediately — no retry, no
semantic call), then the Gemini retry loop with the vision oracle plugged
into `Gemini.validateImage` (so an attempt can only ever resolve — the
embedded validator catches its own faults), then processes and caches the
image. A thrown download backs off and retries until the attempts are
exhausted. The processed buffer's bytes are not modelled; `saveImage`
records the filename only. -/
def dlLoop (env : Env) (cfg : Config) (url model : String) :
    Nat → Nat → Cache.CacheState → ScrapingResult × Cache.CacheState × Trace
  | _, 0, st =>
      ({ success := false,
         error? := some ("Failed to download image from " ++ url ++ " after " ++
           toString cfg.downloadMaxRetries ++ " attempts (unexpected loop exit).") },
       st, ⟨0, 0, 0⟩)
  | idx, remaining + 1, st =>
      match env.download url idx with
      | .fail msg =>
          if remaining = 0 then
            ({ success := false,
               error? := some ("Failed to download and process image from " ++ url ++
                 " after " ++ toString cfg.downloadMaxRetries ++ " attempts: " ++ msg) },
             st, ⟨0, 1, 0⟩)
          else
            let (res, st', tr) := dlLoop env cfg url model (idx + 1) remaining st
            (res, st', ⟨tr.searches, tr.downloads + 1, tr.geminiAttempts⟩)
      | .ok buf =>
          if Validator.validateImage buf = false then
            ({ success := false, error? := some "Image failed basic validation" },
             st, ⟨0, 1, 0⟩)
          else
            let oracle : Nat → SemAttempt :=
              fun i => .returns (Gemini.validateImage buf model (env.vision url i)).1
            let (exit, n) :=
              semLoop oracle cfg.bypassGeminiOnFailure (bypassDummy model)
                cfg.geminiMaxRetries 1 cfg.geminiMaxRetries
            match exit with
            | .errored msg =>
                ({ success := false, error? := some msg }, st, ⟨0, 1, n⟩)
            | .broke none =>
                ({ success := false, error? := some "LLM validation failed" },
                 st, ⟨0, 1, n⟩)
            | .broke (some v) =>
                let (localPath, st') := Cache.saveImage v st
                ({ success := true, imageUrl? := some url,
                   localPath? := some localPath, source? := some env.sourceName },
                 st', ⟨0, 1, n⟩)

/-- `downloadAndValidate` proper: start the retry loop at attempt 1 with
the configured budget. -/
def downloadAndValidate (env : Env) (cfg : Config) (url model : String)
    (st : Cache.CacheState) : ScrapingResult × Cache.CacheState × Trace :=
  dlLoop env cfg url model 1 cfg.downloadMaxRetries st

/-- The terminal failure of `getShoeImage`. -/
def notFoundResult : ScrapingResult :=
  { success := false, error? := some "No valid product image found from any source." }

/-- The candidate loop of `getShoeImage`: try each URL in order, return
the first success, fall through to `NotFound` when the list is exhausted. -/
def urlLoop (env : Env) (cfg : Config) (model : String) :
    List String → Cache.CacheState → Trace → ScrapingResult × Cache.CacheState × Trace
  | [], st, tr => (notFoundResult, st, tr)
  | url :: rest, st, tr =>
      let (r, st', tr') := downloadAndValidate env cfg url model st
      let tr'' : Trace := ⟨tr.searches + tr'.searches, tr.downloads + tr'.downloads,
        tr.geminiAttempts + tr'.geminiAttempts⟩
      if r.success then (r, st', tr'') else urlLoop env cfg model rest st' tr''

/-- `ScraperService.getShoeImage`: answer from the cache when the
normalized key has a live entry (the single fast path — no search, no
download, no semantic attempt), otherwise query the image source and run
the candidate loop; a throwing source is caught and falls through to the
`NotFound` result. -/
def getShoeImage (env : Env) (cfg : Config) (model : String)
    (st : Cache.CacheState) : ScrapingResult × Cache.CacheState × Trace :=
  match Cache.getCachedImage st model with
  | some cachedPath =>
      ({ success := true, localPath? := some cachedPath, source? := some "cache" },
       st, ⟨0, 0, 0⟩)
  | none =>
      match env.search with
      | .error _ => (notFoundResult, st, ⟨1, 0, 0⟩)
      | .ok urls => urlLoop env cfg model urls st ⟨1, 0, 0⟩

end Scraper

namespace Scraper2

/-!
Embedding of the diagnostic-rich `ScraperService.downloadAndValidate`
revision (src/unnamed/part_002): the same control flow as the current
revision plus intermediate-artifact writes, the `geminiValidationStatus`
tag, and the post-loop verdict checks. Here the semantic validator is the
abstract per-attempt oracle `SemAttempt` (an external dependency that may
resolve or throw), which is what claims about thrown semantic faults
quantify over.
-/

/-- The `geminiValidationStatus` values of the rich `ScrapingResult`. -/
inductive GStatus where
  | na
  | approved
  | rejected
  | bypassed
  | failedToValidate
  deriving DecidableEq, Repr

/-- The rich `ScrapingResult` of this revision. -/
structure Result2 where
  success : Bool
  model? : Option String := none
  source? : Option String := none
  error? : Option String := none
  rawDownloadedPath? : Option String := none
  geminiInputPath? : Option String := none
  geminiApprovedRawPath? : Option String := none
  geminiRejectedPath? : Option String := none
  finalProcessedPath? : Option String := none
  geminiValidationStatus : GStatus := .na
  originalImageUrl? : Option String := none
  deriving DecidableEq, Repr

/-- JS `!x.field` on a possibly-missing boolean field. -/
def jsNot (o : Option Bool) : Bool :=
  !jsBool o

/-- JS `a || b` where `a` is a possibly-unset error string. -/
def jsOrStr (a : Option String) (b : String) : String :=
  match a with
  | some s => if s = "" then b else s
  | none => b

/-- The world of one `downloadAndValidate` run of this revision: the
download oracle and the semantic-validation oracle (per URL and 1-based
attempt index). -/
structure Env2 where
  download : String → Nat → Scraper.DownloadOutcome
  semAttempt : String → Nat → Scraper.SemAttempt

/-- The bypass dummy of this revision:
`{ model: model, brand: 'Unknown (Bypassed)', entities: [], themes: [],
isShoe: true, shoeType: 'unknown (Gemini bypassed)' }`. -/
def bypassDummy2 (model : String) : Gemini.GeminiValidationResult :=
  { model := model, brand? := some "Unknown (Bypassed)", isShoe? := some true }

/-- How the semantic retry loop of this revision hands control back. -/
inductive SemExit2 where
  | proceed (r : Option Gemini.GeminiValidationResult)
  | earlyReturn
  deriving DecidableEq, Repr

/-- The Gemini retry loop of this revision, carrying the in-progress
result record and the filesystem: a resolved verdict tags `approved` and
stores the approved-raw intermediate; a resolved `null` tags `rejected`
and stores the rejected intermediate (no retry — Gemini has made a
decision); a thrown attempt retries with backoff until the last attempt,
which either bypasses (tag `bypassed`, dummy verdict, bypassed-input
intermediate) or returns early with the validation-unavailable error and
the `failed_to_validate` tag. -/
def semLoop2 (oracle : Nat → Scraper.SemAttempt) (bypass : Bool)
    (model : String) (maxRetries : Nat) :
    Nat → Nat → Result2 → Cache.CacheState → SemExit2 × Result2 × Cache.CacheState
  | _, 0, res, st => (.proceed none, res, st)
  | idx, remaining + 1, res, st =>
      match oracle idx with
      | .returns (some v) =>
          let (p, st') := Cache.saveIntermediateImage model "gemini-approved-raw" st
          (.proceed (some v),
           { res with geminiValidationStatus := .approved,
                      geminiApprovedRawPath? := p, geminiInputPath? := p }, st')
      | .returns none =>
          let (p, st') := Cache.saveIntermediateImage model "gemini-rejected" st
          (.proceed none,
           { res with geminiValidationStatus := .rejected,
                      geminiRejectedPath? := p }, st')
      | .throws msg =>
          if remaining = 0 then
            if bypass then
              let (p, st') := Cache.saveIntermediateImage model "gemini-bypassed-input" st
              (.proceed (some (bypassDummy2 model)),
               { res with geminiValidationStatus := .bypassed,
                          geminiInputPath? := p }, st')
            else
              (.earlyReturn,
               { res with
                   error? := some ("LLM validation failed after " ++
                     toString maxRetries ++ " attempts: " ++ msg),
                   geminiValidationStatus := .failedToValidate }, st)
          else
            semLoop2 oracle bypass model maxRetries (idx + 1) remaining res st

/-- The download/validate loop of this revision. On decoded bytes it
stores the raw-download intermediate, runs the structural validator (a
failure returns the partially filled result at once), runs the semantic
loop, applies the post-loop verdict checks (the `null` check, the
`rejected`-and-no-bypass check, and the `isShoe` check on the verdict
object), and finally processes and caches the image, tagging the result
successful. A thrown download retries until the budget is exhausted. -/
def dlLoop2 (env : Env2) (cfg : Scraper.Config) (url model : String) :
    Nat → Nat → Result2 → Cache.CacheState → Result2 × Cache.CacheState
  | _, 0, res, st =>
      ({ res with error? := some ("Failed to download image from " ++ url ++
           " after " ++ toString cfg.downloadMaxRetries ++
           " attempts (unexpected loop exit).") }, st)
  | idx, remaining + 1, res, st =>
      match env.download url idx with
      | .fail msg =>
          let res' := { res with error? := some msg }
          if remaining = 0 then
            ({ res' with error? := some ("Failed to download and process image from " ++
                 url ++ " after " ++ toString cfg.downloadMaxRetries ++
                 " attempts: " ++ msg) }, st)
          else
            dlLoop2 env cfg url model (idx + 1) remaining res' st
      | .ok buf =>
          let (p, st1) := Cache.saveIntermediateImage model "raw-download" st
          let res1 := { res with rawDownloadedPath? := p, geminiInputPath? := p }
          if Validator.validateImage buf = false then
            ({ res1 with error? := some "Image failed basic validation" }, st1)
          else
            match semLoop2 (env.semAttempt url) cfg.bypassGeminiOnFailure model
                cfg.geminiMaxRetries 1 cfg.geminiMaxRetries res1 st1 with
            | (.earlyReturn, res2, st2) => (res2, st2)
            | (.proceed none, res2, st2) =>
                ({ res2 with error? := some (jsOrStr res2.error?
                     "LLM validation failed (Gemini rejected or failed and bypass off)") },
                 st2)
            | (.proceed (some v), res2, st2) =>
                if res2.geminiValidationStatus = GStatus.rejected ∧
                    cfg.bypassGeminiOnFailure = false then
                  ({ res2 with error? := some (jsOrStr res2.error?
                       "LLM validation failed (Gemini rejected and bypass is off)") },
                   st2)
                else if jsNot v.isShoe? = true ∧
                    res2.geminiValidationStatus = GStatus.approved then
                  ({ res2 with
                       geminiValidationStatus := .rejected,
                       geminiRejectedPath? := res2.geminiApprovedRawPath?,
                       geminiApprovedRawPath? := none,
                       error? := some "LLM validation: Image is not a shoe." }, st2)
                else
                  let (finalPath, st3) := Cache.saveImage v st2
                  ({ res2 with
                       finalProcessedPath? := some finalPath,
                       success := true, model? := some v.model }, st3)

/-- `downloadAndValidate` of this revision: initialize the result record
(`success: false`, the request model, the candidate URL, the source name,
status `n/a`) and run the retry loop from attempt 1. -/
def downloadAndValidate (env : Env2) (cfg : Scraper.Config)
    (url model sourceName : String) (st : Cache.CacheState) :
    Result2 × Cache.CacheState :=
  let res : Result2 :=
    { success := false, model? := some model, source? := some sourceName,
      geminiValidationStatus := .na, originalImageUrl? := some url }
  dlLoop2 env cfg url model 1 cfg.downloadMaxRetries res st

end Scraper2

/-! ### Spec-side definitions

Definitions that follow the specification's words rather than the source,
used to compare claimed behaviour against embedded behaviour. -/

/-- Modelled from the claim's words: the CacheKey normalization that
lowercases and collapses every maximal run of consecutive non-alphanumeric
characters into a single separator character. (The source's
`normalizeKey` replaces the characters one by one instead.) -/
def normalizeKeyCollapsed (model : String) : String :=
  let lowered := model.data.map Char.toLower
  String.mk (Cache.collapseRuns (fun c => !Cache.isAlnumLower c) '_' lowered)

/-- The claim's "near-white fraction over all sampled strip pixels", as an
exact rational. -/
def nearWhiteFraction (px : Nat → Nat → RGB) (w h b : Nat) : ℚ :=
  (whiteCount px w h b : ℚ) / (totalCount px w h b : ℚ)

/-! ### Concrete fixtures -/

/-- A pure-white pixel. -/
def whitePx : RGB := ⟨255, 255, 255⟩

/-- A pure-black pixel. -/
def blackPx : RGB := ⟨0, 0, 0⟩

/-- A fully white 25×25 image (border thickness 2, all 200 border samples
near-white). -/
def whiteImg : Img :=
  { width? := some 25, height? := some 25, channels? := some 3,
    pixel := fun _ _ => whitePx }

/-- A fully black 25×25 image (0% near-white border). -/
def blackImg : Img :=
  { width? := some 25, height? := some 25, channels? := some 3,
    pixel := fun _ _ => blackPx }

/-- A fully white 25×25 image whose metadata lacks the `channels` entry. -/
def noChannelsImg : Img :=
  { width? := some 25, height? := some 25, channels? := none,
    pixel := fun _ _ => whitePx }

/-- A 25×25 white image with `bad` black pixels placed in row 0, columns
2 … 2+bad−1: positions sampled exactly once (by the top strip only, since
the border thickness is 2 and the left/right strips cover columns 0–1 and
23–24). The 200 border samples therefore contain exactly `bad` non-white
pixels: `bad = 8` gives a 96%-white border, `bad = 12` gives 94%. -/
def borderTestImg (bad : Nat) : Img :=
  { width? := some 25, height? := some 25, channels? := some 3,
    pixel := fun x y => if y = 0 ∧ 2 ≤ x ∧ x < 2 + bad then blackPx else whitePx }

/-! ### Helper lemmas for the border heuristic -/

theorem length_regionPixels (px : Nat → Nat → RGB) (left top w h : Nat) :
    (regionPixels px left top w h).length = h * w := by
  unfold regionPixels
  rw [List.length_flatMap]
  simp [Function.comp_def, List.map_const', List.sum_replicate, smul_eq_mul]

theorem totalCount_eq (px : Nat → Nat → RGB) (w h b : Nat) :
    totalCount px w h b = b * w + b * w + (h * b + h * b) := by
  simp [totalCount, borderSamples, length_regionPixels]
  ring

theorem borderSize_pos_bounds {w h : Nat} (hb : 0 < borderSize w h) :
    10 ≤ w ∧ 10 ≤ h := by
  have h1 : 0 < w / 10 ∧ 0 < h / 10 := by
    have := hb
    unfold borderSize at this
    omega
  constructor
  · exact (Nat.one_le_div_iff (by norm_num)).mp h1.1
  · exact (Nat.one_le_div_iff (by norm_num)).mp h1.2

theorem totalCount_pos {w h : Nat} (px : Nat → Nat → RGB)
    (hb : 0 < borderSize w h) : 0 < totalCount px w h (borderSize w h) := by
  obtain ⟨hw, _⟩ := borderSize_pos_bounds hb
  rw [totalCount_eq]
  have : 0 < borderSize w h * w := Nat.mul_pos hb (by omega)
  omega

theorem borderCheck_eq_true_iff (px : Nat → Nat → RGB) (w h : Nat) :
    borderCheck px w h = true ↔
      0 < borderSize w h ∧
      (95 : ℚ) / 100 < nearWhiteFraction px w h (borderSize w h) := by
  unfold borderCheck
  by_cases hb : borderSize w h = 0
  · simp [hb]
  · have hbpos : 0 < borderSize w h := Nat.pos_of_ne_zero hb
    have htot := totalCount_pos px hbpos
    have key : (95 : ℚ) / 100 < nearWhiteFraction px w h (borderSize w h) ↔
        95 * totalCount px w h (borderSize w h) <
          100 * whiteCount px w h (borderSize w h) := by
      unfold nearWhiteFraction
      rw [div_lt_div_iff₀ (by norm_num) (by exact_mod_cast htot)]
      norm_cast
      constructor <;> intro hlt <;> omega
    simp only [hb, if_false, decide_eq_true_eq, key, hbpos, true_and]

/-! ### Claim theorems -/

set_option maxRecDepth 4000 in
/-- C5: the Structural Validator accepts exactly the images with decodable
width/height/channels metadata, a positive border thickness
min(5, ⌊w/10⌋, ⌊h/10⌋), and a near-white fraction over all sampled strip
pixels strictly above 95% (near-white: all three channels above 240);
undecodable or too-small images fail; a 96%-white border (192 of 200
samples) passes and a 94%-white border (188 of 200) fails. -/
theorem c5_structural_validator_characterization :
    (∀ img : Img, Validator.validateImage img = true ↔
      ∃ w h c, img.width? = some w ∧ img.height? = some h ∧
        img.channels? = some c ∧ 0 < c ∧ 0 < borderSize w h ∧
        (95 : ℚ) / 100 < nearWhiteFraction img.pixel w h (borderSize w h)) ∧
    Validator.validateImage (borderTestImg 8) = true ∧
    Validator.validateImage (borderTestImg 12) = false := by
  refine ⟨?_, by decide, by decide⟩
  intro img
  obtain ⟨w?, h?, c?, px⟩ := img
  rcases w? with _ | w <;> rcases h? with _ | h <;> rcases c? with _ | c
  all_goals try (simp [Validator.validateImage]; done)
  simp only [Validator.validateImage, Option.some.injEq, exists_eq_left']
  rcases Nat.eq_zero_or_pos w with hw0 | hw0
  · subst hw0
    simp [borderSize, Nat.zero_div, Nat.zero_min, Nat.min_zero]
  rcases Nat.eq_zero_or_pos h with hh0 | hh0
  · subst hh0
    simp [borderSize, Nat.zero_div, Nat.zero_min, Nat.min_zero]
  rcases Nat.eq_zero_or_pos c with hc0 | hc0
  · subst hc0
    simp
  rw [if_neg (by simp; omega)]
  rw [borderCheck_eq_true_iff]
  simp [hc0]

/-- C6 counterexample: for the input "a--b" the code's `normalizeKey`
produces "a__b" — one separator per non-alphanumeric character — whereas
the claimed run-collapsing normalization would produce "a_b". -/
theorem c6_counterexample :
    Cache.normalizeKey "a--b" = "a__b" ∧
    normalizeKeyCollapsed "a--b" = "a_b" ∧
    Cache.normalizeKey "a--b" ≠ normalizeKeyCollapsed "a--b" := by decide

/-- C6 amended: `normalizeKey` lowercases the string and replaces each
non-alphanumeric character individually with one separator character
(so the output always has the same length as the input — a run of k
non-alphanumeric characters yields k separators, not one). -/
theorem c6_normalize_replaces_each_character :
    ∀ s : String, (Cache.normalizeKey s).length = s.length ∧
      (Cache.normalizeKey s).data = s.data.map
        (fun c => if Cache.isAlnumLower c.toLower then c.toLower else '_') := by
  intro s
  unfold Cache.normalizeKey
  refine ⟨?_, by simp [List.map_map, Function.comp_def]⟩
  show ((s.data.map Char.toLower).map _).length = s.length
  rw [List.length_map, List.length_map]
  rfl

set_option maxRecDepth 4000 in
/-- C10 counterexample: a decodable all-white 25×25 image whose metadata
lacks the `channels` entry is rejected by the Structural Validator (its
`!channels` guard) but accepted by the semantic validator's local
`isBackgroundWhite` check — the two checks are not identical. -/
theorem c10_counterexample :
    Gemini.isBackgroundWhite noChannelsImg = true ∧
    Validator.validateImage noChannelsImg = false := by decide

/-- C10 amended: the semantic validator's local near-white border check
agrees with the Structural Validator on every image whose `channels`
metadata is present and non-zero (it omits only that guard), and whenever
the local check fails, `validateImage` returns null without contacting the
external vision model. -/
theorem c10_local_check_guards_vision_call :
    (∀ img : Img, (∃ c, img.channels? = some c ∧ c ≠ 0) →
      Gemini.isBackgroundWhite img = Validator.validateImage img) ∧
    (∀ (img : Img) (m : String) (call : Gemini.VisionOutcome),
      Gemini.isBackgroundWhite img = false →
      Gemini.validateImage img m call = (none, false)) := by
  constructor
  · rintro img ⟨c, hc, hc0⟩
    obtain ⟨w?, h?, c?, px⟩ := img
    simp only at hc
    subst hc
    rcases w? with _ | w <;> rcases h? with _ | h <;>
      simp [Gemini.isBackgroundWhite, Validator.validateImage, hc0]
  · intro img m call h
    unfold Gemini.validateImage
    simp [h]

set_option maxRecDepth 4000 in
/-- Witness for the amended C10 theorem at concrete inputs: the all-white
image with channels metadata, and the all-black image (whose local check
fails) submitted with a timed-out vision call. -/
theorem c10_local_check_guards_vision_call_witness :
    Gemini.isBackgroundWhite whiteImg = Validator.validateImage whiteImg ∧
    Gemini.validateImage blackImg "Lems Primal 3" Gemini.VisionOutcome.timeout =
      (none, false) :=
  ⟨c10_local_check_guards_vision_call.1 whiteImg ⟨3, rfl, by decide⟩,
   c10_local_check_guards_vision_call.2 blackImg "Lems Primal 3"
     Gemini.VisionOutcome.timeout (by decide)⟩

/-! ### Concrete pipeline scenario: canonical name differs from the query -/

/-- The user's original input query of the concrete scenarios. -/
def origQuery : String := "Vivobarefoot Primus Lite III"

/-- An approved verdict whose canonical model name (the vision model's
best guess) drops the brand prefix of the query. -/
def canonicalVerdict : Gemini.GeminiValidationResult :=
  { usable? := some true, brand? := some "Vivobarefoot",
    model := "Primus Lite III",
    keywords? := some ["vivobarefoot primus lite iii barefoot shoe"],
    rotate? := some false }

/-- The empty cache directory. -/
def emptyCache : Cache.CacheState := ⟨[], [], []⟩

/-- C1 evaluation at the failing input: `saveImage` with the approved
verdict updates the index under `normalizeKey(verdict.model)` =
"primus_lite_iii" — a key derived from the verdict's canonical model —
and NOT under the normalized original query
"vivobarefoot_primus_lite_iii"; consequently a subsequent lookup with the
user's phrasing misses. (The second half of the claim — the index file is
persisted synchronously before returning — does hold.) -/
theorem c1_saveimage_key_from_verdict_model :
    Cache.getKey (Cache.normalizeKey canonicalVerdict.model)
        (Cache.saveImage canonicalVerdict emptyCache).2.index =
      some "vivobarefoot-primus-lite-iii-side-view.jpg" ∧
    Cache.getKey (Cache.normalizeKey origQuery)
        (Cache.saveImage canonicalVerdict emptyCache).2.index = none ∧
    Cache.normalizeKey origQuery ≠ Cache.normalizeKey canonicalVerdict.model ∧
    (Cache.saveImage canonicalVerdict emptyCache).2.indexOnDisk =
      (Cache.saveImage canonicalVerdict emptyCache).2.index ∧
    Cache.getCachedImage (Cache.saveImage canonicalVerdict emptyCache).2 origQuery =
      none := by
  decide

/-! ### C9: the normalizer's cosmetic perturbation -/

theorem filter_cosmetic_makeUnique (img : Img)
    (g : Gemini.GeminiValidationResult) (r1 r2 : ℚ) :
    (Processor.makeUnique img g r1 r2).filter Processor.isCosmeticPerturbation =
      (if ⌊r1 * 3⌋₊ = 0 then [Processor.ImgOp.mirrorFlip]
       else if ⌊r1 * 3⌋₊ = 1 then [Processor.ImgOp.rotateSmall ((r2 - 1/2) * 2)]
       else if ⌊r1 * 3⌋₊ = 2 then
         [Processor.ImgOp.brighten (1 + (r2 * (1/10) - 1/20))]
       else []) := by
  unfold Processor.makeUnique
  split_ifs <;>
    simp_all [List.filter_append, Processor.isCosmeticPerturbation]

/-- C9: for every image, verdict and pair of `Math.random()` draws in
[0, 1), `makeUnique` applies exactly one cosmetic perturbation — the
mirror flip, a rotation within [-1, +1] degrees, or a brightness scaling
within [0.95, 1.05] — alongside its orientation correction and metadata
embedding. -/
theorem c9_exactly_one_perturbation :
    ∀ (img : Img) (g : Gemini.GeminiValidationResult) (r1 r2 : ℚ),
      0 ≤ r1 → r1 < 1 → 0 ≤ r2 → r2 < 1 →
      ∃ p, (Processor.makeUnique img g r1 r2).filter
            Processor.isCosmeticPerturbation = [p] ∧
        (p = Processor.ImgOp.mirrorFlip ∨
         (∃ d, p = Processor.ImgOp.rotateSmall d ∧ -1 ≤ d ∧ d ≤ 1) ∨
         (∃ f, p = Processor.ImgOp.brighten f ∧
           95/100 ≤ f ∧ f ≤ 105/100)) := by
  intro img g r1 r2 h0 h1 h0' h1'
  have ht : ⌊r1 * 3⌋₊ < 3 := by
    rw [Nat.floor_lt (by positivity)]
    push_cast
    linarith
  rw [filter_cosmetic_makeUnique]
  have ht3 : ⌊r1 * 3⌋₊ = 0 ∨ ⌊r1 * 3⌋₊ = 1 ∨ ⌊r1 * 3⌋₊ = 2 := by omega
  rcases ht3 with h | h | h
  · exact ⟨Processor.ImgOp.mirrorFlip, by simp [h], Or.inl rfl⟩
  · refine ⟨Processor.ImgOp.rotateSmall ((r2 - 1/2) * 2), by simp [h], ?_⟩
    exact Or.inr (Or.inl ⟨(r2 - 1/2) * 2, rfl, by linarith, by linarith⟩)
  · refine ⟨Processor.ImgOp.brighten (1 + (r2 * (1/10) - 1/20)), by simp [h], ?_⟩
    exact Or.inr (Or.inr ⟨1 + (r2 * (1/10) - 1/20), rfl, by linarith, by linarith⟩)

/-- Witness for C9 at a concrete input: both draws 0, which selects the
mirror flip. -/
theorem c9_exactly_one_perturbation_witness :
    ∃ p, (Processor.makeUnique whiteImg canonicalVerdict 0 0).filter
          Processor.isCosmeticPerturbation = [p] ∧
      (p = Processor.ImgOp.mirrorFlip ∨
       (∃ d, p = Processor.ImgOp.rotateSmall d ∧ -1 ≤ d ∧ d ≤ 1) ∨
       (∃ f, p = Processor.ImgOp.brighten f ∧ 95/100 ≤ f ∧ f ≤ 105/100)) :=
  c9_exactly_one_perturbation whiteImg canonicalVerdict 0 0
    (by norm_num) (by norm_num) (by norm_num) (by norm_num)

/-! ### Orchestrator lemmas and claims C7/C8 -/

theorem dav_structural_failure (env : Scraper.Env) (cfg : Scraper.Config)
    (url model : String) (st : Cache.CacheState) (buf : Img)
    (hmax : 0 < cfg.downloadMaxRetries)
    (hdl : env.download url 1 = Scraper.DownloadOutcome.ok buf)
    (hval : Validator.validateImage buf = false) :
    Scraper.downloadAndValidate env cfg url model st =
      ({ success := false, error? := some "Image failed basic validation" },
       st, ⟨0, 1, 0⟩) := by
  unfold Scraper.downloadAndValidate
  obtain ⟨r, hr⟩ : ∃ r, cfg.downloadMaxRetries = r + 1 :=
    ⟨cfg.downloadMaxRetries - 1, by omega⟩
  rw [hr]
  unfold Scraper.dlLoop
  rw [hdl]
  simp [hval]

theorem urlLoop_structural_exhaustion (env : Scraper.Env) (cfg : Scraper.Config)
    (model : String) :
    ∀ (urls : List String) (st : Cache.CacheState) (tr : Scraper.Trace),
      0 < cfg.downloadMaxRetries →
      (∀ url ∈ urls, ∃ buf, env.download url 1 = Scraper.DownloadOutcome.ok buf ∧
        Validator.validateImage buf = false) →
      ∃ tr', Scraper.urlLoop env cfg model urls st tr =
        (Scraper.notFoundResult, st, tr') := by
  intro urls
  induction urls with
  | nil => intro st tr _ _; exact ⟨tr, rfl⟩
  | cons u rest ih =>
      intro st tr hmax hall
      obtain ⟨buf, hdl, hval⟩ := hall u (List.mem_cons_self u rest)
      obtain ⟨tr', htr'⟩ :=
        ih st ⟨tr.searches + 0, tr.downloads + 1, tr.geminiAttempts + 0⟩ hmax
          (fun url hu => hall url (List.mem_cons_of_mem u hu))
      refine ⟨tr', ?_⟩
      have hfail := dav_structural_failure env cfg u model st buf hmax hdl hval
      simp only [Scraper.urlLoop, hfail]
      simpa using htr'

/-- C7: bytes that fail structural validation make `downloadAndValidate`
return a failure for that URL at once — exactly one download, no retry of
that URL, and zero semantic-validation attempts — and `getShoeImage` then
moves on to the next candidate (when the second candidate's attempt
succeeds, its result is the one returned). -/
theorem c7_structural_rejection_is_terminal :
    (∀ (env : Scraper.Env) (cfg : Scraper.Config) (url model : String)
        (st : Cache.CacheState) (buf : Img),
      0 < cfg.downloadMaxRetries →
      env.download url 1 = Scraper.DownloadOutcome.ok buf →
      Validator.validateImage buf = false →
      Scraper.downloadAndValidate env cfg url model st =
        ({ success := false, error? := some "Image failed basic validation" },
         st, ⟨0, 1, 0⟩)) ∧
    (∀ (env : Scraper.Env) (cfg : Scraper.Config) (u1 u2 model : String)
        (st : Cache.CacheState) (buf1 : Img),
      Cache.getCachedImage st model = none →
      env.search = Except.ok [u1, u2] →
      0 < cfg.downloadMaxRetries →
      env.download u1 1 = Scraper.DownloadOutcome.ok buf1 →
      Validator.validateImage buf1 = false →
      (Scraper.downloadAndValidate env cfg u2 model st).1.success = true →
      (Scraper.getShoeImage env cfg model st).1 =
        (Scraper.downloadAndValidate env cfg u2 model st).1) := by
  constructor
  · exact fun env cfg url model st buf =>
      dav_structural_failure env cfg url model st buf
  · intro env cfg u1 u2 model st buf1 hc hs hmax hdl hval hsucc
    have hfail := dav_structural_failure env cfg u1 model st buf1 hmax hdl hval
    rcases hdav : Scraper.downloadAndValidate env cfg u2 model st with ⟨r2, st2, tr2⟩
    rw [hdav] at hsucc
    simp only at hsucc
    simp [Scraper.getShoeImage, hc, hs, Scraper.urlLoop, hfail, hdav, hsucc]

set_option maxRecDepth 4000 in
/-- Witness for C7 at concrete inputs: an all-black first candidate and a
second candidate that passes both validators. -/
theorem c7_structural_rejection_is_terminal_witness :
    Scraper.downloadAndValidate
        { sourceName := "SearchEngine",
          search := Except.ok ["u1", "u2"],
          download := fun url _ =>
            Scraper.DownloadOutcome.ok (if url = "u1" then blackImg else whiteImg),
          vision := fun _ _ => Gemini.VisionOutcome.ok canonicalVerdict }
        { downloadMaxRetries := 3, geminiMaxRetries := 2,
          bypassGeminiOnFailure := false }
        "u1" "Vivobarefoot Primus Lite III" ⟨[], [], []⟩ =
      ({ success := false, error? := some "Image failed basic validation" },
       ⟨[], [], []⟩, ⟨0, 1, 0⟩) ∧
    (Scraper.getShoeImage
        { sourceName := "SearchEngine",
          search := Except.ok ["u1", "u2"],
          download := fun url _ =>
            Scraper.DownloadOutcome.ok (if url = "u1" then blackImg else whiteImg),
          vision := fun _ _ => Gemini.VisionOutcome.ok canonicalVerdict }
        { downloadMaxRetries := 3, geminiMaxRetries := 2,
          bypassGeminiOnFailure := false }
        "Vivobarefoot Primus Lite III" ⟨[], [], []⟩).1 =
      (Scraper.downloadAndValidate
        { sourceName := "SearchEngine",
          search := Except.ok ["u1", "u2"],
          download := fun url _ =>
            Scraper.DownloadOutcome.ok (if url = "u1" then blackImg else whiteImg),
          vision := fun _ _ => Gemini.VisionOutcome.ok canonicalVerdict }
        { downloadMaxRetries := 3, geminiMaxRetries := 2,
          bypassGeminiOnFailure := false }
        "u2" "Vivobarefoot Primus Lite III" ⟨[], [], []⟩).1 :=
  ⟨c7_structural_rejection_is_terminal.1 _ _ "u1" "Vivobarefoot Primus Lite III" _
      blackImg (by norm_num) rfl (by decide),
   c7_structural_rejection_is_terminal.2 _ _ "u1" "u2" "Vivobarefoot Primus Lite III"
      _ blackImg (by decide) rfl (by norm_num) rfl (by decide) (by decide)⟩

/-- C8: when every candidate URL downloads but fails structural
validation, `getShoeImage` ends in the not-found outcome, and the cache
state — index, files and persisted index alike — is exactly what it was
before the call. -/
theorem c8_terminal_exhaustion_cache_unchanged :
    ∀ (env : Scraper.Env) (cfg : Scraper.Config) (model : String)
      (st : Cache.CacheState) (urls : List String),
      Cache.getCachedImage st model = none →
      env.search = Except.ok urls →
      0 < cfg.downloadMaxRetries →
      (∀ url ∈ urls, ∃ buf, env.download url 1 = Scraper.DownloadOutcome.ok buf ∧
        Validator.validateImage buf = false) →
      (Scraper.getShoeImage env cfg model st).1 = Scraper.notFoundResult ∧
      (Scraper.getShoeImage env cfg model st).2.1 = st := by
  intro env cfg model st urls hc hs hmax hall
  obtain ⟨tr', htr'⟩ := urlLoop_structural_exhaustion env cfg model urls st ⟨1, 0, 0⟩ hmax hall
  simp [Scraper.getShoeImage, hc, hs, htr']

set_option maxRecDepth 4000 in
/-- Witness for C8 at concrete inputs: two candidates, both all-black,
starting from a non-trivial cache state. -/
theorem c8_terminal_exhaustion_cache_unchanged_witness :
    (Scraper.getShoeImage
        { sourceName := "SearchEngine",
          search := Except.ok ["u1", "u2"],
          download := fun _ _ => Scraper.DownloadOutcome.ok blackImg,
          vision := fun _ _ => Gemini.VisionOutcome.ok canonicalVerdict }
        { downloadMaxRetries := 3, geminiMaxRetries := 2,
          bypassGeminiOnFailure := false }
        "Xero Shoes Prio"
        ⟨[("other_key", "other.jpg")], ["other.jpg"], [("other_key", "other.jpg")]⟩).1 =
      Scraper.notFoundResult ∧
    (Scraper.getShoeImage
        { sourceName := "SearchEngine",
          search := Except.ok ["u1", "u2"],
          download := fun _ _ => Scraper.DownloadOutcome.ok blackImg,
          vision := fun _ _ => Gemini.VisionOutcome.ok canonicalVerdict }
        { downloadMaxRetries := 3, geminiMaxRetries := 2,
          bypassGeminiOnFailure := false }
        "Xero Shoes Prio"
        ⟨[("other_key", "other.jpg")], ["other.jpg"], [("other_key", "other.jpg")]⟩).2.1 =
      ⟨[("other_key", "other.jpg")], ["other.jpg"], [("other_key", "other.jpg")]⟩ :=
  c8_terminal_exhaustion_cache_unchanged _ _ "Xero Shoes Prio" _ ["u1", "u2"]
    (by decide) rfl (by norm_num)
    (fun url _ => ⟨blackImg, rfl, by decide⟩)

/-! ### Claims C2/C3: concrete end-to-end scenarios and the dead bypass -/

/-- The happy-path environment: one candidate whose download yields the
all-white image and whose vision call answers with the approved canonical
verdict (whose model name differs from the user's query). -/
def happyEnv : Scraper.Env :=
  { sourceName := "SearchEngine",
    search := Except.ok ["https://img.example/primus.jpg"],
    download := fun _ _ => Scraper.DownloadOutcome.ok whiteImg,
    vision := fun _ _ => Gemini.VisionOutcome.ok canonicalVerdict }

/-- Same world, but every vision call exceeds the hard timeout. -/
def faultEnv : Scraper.Env :=
  { sourceName := "SearchEngine",
    search := Except.ok ["https://img.example/primus.jpg"],
    download := fun _ _ => Scraper.DownloadOutcome.ok whiteImg,
    vision := fun _ _ => Gemini.VisionOutcome.timeout }

/-- Default-ish configuration (bypass disabled). -/
def baseConfig : Scraper.Config :=
  { downloadMaxRetries := 3, geminiMaxRetries := 2, bypassGeminiOnFailure := false }

/-- `baseConfig` with the bypass flag enabled. -/
def bypassConfig : Scraper.Config :=
  { downloadMaxRetries := 3, geminiMaxRetries := 2, bypassGeminiOnFailure := true }

set_option maxRecDepth 10000 in
/-- C2 evaluation at the failing input: the first `getShoeImage` call for
"Vivobarefoot Primus Lite III" succeeds (the verdict's canonical model is
"Primus Lite III", so `saveImage` keys the index under "primus_lite_iii"),
and the second call with the exact same model string and the resulting
cache does NOT hit the cache: it reports the scraping source, issues a
fresh search, a fresh download and a fresh semantic attempt — even though
it ends up at the same artifact path. -/
theorem c2_second_call_repeats_search_work :
    ((Scraper.getShoeImage happyEnv baseConfig origQuery emptyCache).1.success
      = true) ∧
    ((Scraper.getShoeImage happyEnv baseConfig origQuery
        (Scraper.getShoeImage happyEnv baseConfig origQuery emptyCache).2.1).1.source?
      = some "SearchEngine") ∧
    ((Scraper.getShoeImage happyEnv baseConfig origQuery
        (Scraper.getShoeImage happyEnv baseConfig origQuery emptyCache).2.1).2.2
      = ⟨1, 1, 1⟩) ∧
    ((Scraper.getShoeImage happyEnv baseConfig origQuery
        (Scraper.getShoeImage happyEnv baseConfig origQuery emptyCache).2.1).1.localPath?
      = (Scraper.getShoeImage happyEnv baseConfig origQuery emptyCache).1.localPath?) := by
  decide

theorem semLoop_returns_same (f : Nat → Option Gemini.GeminiValidationResult)
    (b1 b2 : Bool) (d1 d2 : Gemini.GeminiValidationResult) (maxR : Nat) :
    ∀ (idx remaining : Nat),
      Scraper.semLoop (fun i => Scraper.SemAttempt.returns (f i)) b1 d1 maxR idx remaining =
      Scraper.semLoop (fun i => Scraper.SemAttempt.returns (f i)) b2 d2 maxR idx remaining := by
  intro idx remaining
  cases remaining <;> simp [Scraper.semLoop]

theorem dlLoop_bypass_flag_irrelevant (env : Scraper.Env)
    (cfg1 cfg2 : Scraper.Config) (url model : String)
    (hdlm : cfg1.downloadMaxRetries = cfg2.downloadMaxRetries)
    (hgm : cfg1.geminiMaxRetries = cfg2.geminiMaxRetries) :
    ∀ (remaining idx : Nat) (st : Cache.CacheState),
      Scraper.dlLoop env cfg1 url model idx remaining st =
      Scraper.dlLoop env cfg2 url model idx remaining st := by
  intro remaining
  induction remaining with
  | zero => intro idx st; simp [Scraper.dlLoop, hdlm]
  | succ r ih =>
      intro idx st
      rcases hd : env.download url idx with buf | msg
      · simp only [Scraper.dlLoop, hd]
        by_cases hv : Validator.validateImage buf = false
        · simp [hv]
        · rw [if_neg hv, if_neg hv, hgm,
            semLoop_returns_same
              (fun i => (Gemini.validateImage buf model (env.vision url i)).1)
              cfg1.bypassGeminiOnFailure cfg2.bypassGeminiOnFailure
              (Scraper.bypassDummy model) (Scraper.bypassDummy model)
              cfg2.geminiMaxRetries 1 cfg2.geminiMaxRetries]
      · simp only [Scraper.dlLoop, hd]
        rcases Nat.eq_zero_or_pos r with rfl | hr
        · simp [hdlm]
        · rw [if_neg (by omega), if_neg (by omega), ih]

set_option maxRecDepth 10000 in
/-- C3: the embedded Gemini validator catches every vision-call error —
the hard timeout included — and resolves with `null`, which the
orchestrator treats as an explicit content rejection. Consequently (i) the
bypass flag can never change the outcome of `downloadAndValidate` (the
retry-exhaustion branch is unreachable), and (ii) in the concrete run
where every vision call times out, with two configured semantic retries
and the bypass enabled, the candidate fails after exactly ONE semantic
attempt with the rejection error — no backoff retry, no bypass. -/
theorem c3_vision_faults_classified_as_rejection :
    (∀ (env : Scraper.Env) (cfg : Scraper.Config) (url model : String)
        (st : Cache.CacheState),
      Scraper.downloadAndValidate env
          { cfg with bypassGeminiOnFailure := true } url model st =
        Scraper.downloadAndValidate env
          { cfg with bypassGeminiOnFailure := false } url model st) ∧
    (Scraper.downloadAndValidate faultEnv bypassConfig
        "https://img.example/primus.jpg" origQuery emptyCache =
      ({ success := false, error? := some "LLM validation failed" },
       emptyCache, ⟨0, 1, 1⟩)) := by
  constructor
  · intro env cfg url model st
    unfold Scraper.downloadAndValidate
    exact dlLoop_bypass_flag_irrelevant env
      { cfg with bypassGeminiOnFailure := true }
      { cfg with bypassGeminiOnFailure := false } url model rfl rfl
      cfg.downloadMaxRetries 1 st
  · decide

/-! ### Claim C4: bypass policy when every semantic attempt throws -/

theorem getKey_setKey (k v : String) (l : List (String × String)) :
    Cache.getKey k (Cache.setKey k v l) = some v := by
  simp [Cache.getKey, Cache.setKey]

theorem mem_writeFile (fn : String) (files : List String) :
    fn ∈ Cache.writeFile fn files := by
  unfold Cache.writeFile
  split <;> simp_all

theorem semLoop2_all_throws_bypass (oracle : Nat → Scraper.SemAttempt)
    (model : String) (maxR : Nat)
    (hthrow : ∀ i, ∃ m, oracle i = Scraper.SemAttempt.throws m) :
    ∀ (remaining idx : Nat) (res : Scraper2.Result2) (st : Cache.CacheState),
      0 < remaining →
      Scraper2.semLoop2 oracle true model maxR idx remaining res st =
        (Scraper2.SemExit2.proceed (some (Scraper2.bypassDummy2 model)),
         { res with
             geminiValidationStatus := .bypassed,
             geminiInputPath? :=
               (Cache.saveIntermediateImage model "gemini-bypassed-input" st).1 },
         (Cache.saveIntermediateImage model "gemini-bypassed-input" st).2) := by
  intro remaining
  induction remaining with
  | zero => intro idx res st h; exact absurd h (by omega)
  | succ r ih =>
      intro idx res st _
      obtain ⟨m, hm⟩ := hthrow idx
      simp only [Scraper2.semLoop2, hm]
      rcases Nat.eq_zero_or_pos r with rfl | hr
      · simp
      · rw [if_neg (by omega)]
        exact ih (idx + 1) res st hr

theorem semLoop2_all_throws_noBypass (oracle : Nat → Scraper.SemAttempt)
    (model : String) (maxR : Nat)
    (hthrow : ∀ i, ∃ m, oracle i = Scraper.SemAttempt.throws m) :
    ∀ (remaining idx : Nat) (res : Scraper2.Result2) (st : Cache.CacheState),
      0 < remaining →
      ∃ m, Scraper2.semLoop2 oracle false model maxR idx remaining res st =
        (Scraper2.SemExit2.earlyReturn,
         { res with
             error? := some ("LLM validation failed after " ++ toString maxR ++
               " attempts: " ++ m),
             geminiValidationStatus := .failedToValidate },
         st) := by
  intro remaining
  induction remaining with
  | zero => intro idx res st h; exact absurd h (by omega)
  | succ r ih =>
      intro idx res st _
      obtain ⟨m, hm⟩ := hthrow idx
      rcases Nat.eq_zero_or_pos r with rfl | hr
      · exact ⟨m, by simp only [Scraper2.semLoop2, hm]; simp⟩
      · obtain ⟨m', hm'⟩ := ih (idx + 1) res st hr
        refine ⟨m', ?_⟩
        simp only [Scraper2.semLoop2, hm]
        rw [if_neg (by omega)]
        exact hm'

theorem dlLoop2_throws_bypass_run (env : Scraper2.Env2) (cfg : Scraper.Config)
    (url model : String) (buf : Img)
    (hbyp : cfg.bypassGeminiOnFailure = true) (hgm : 0 < cfg.geminiMaxRetries)
    (hval : Validator.validateImage buf = true)
    (hthrow : ∀ i, ∃ m, env.semAttempt url i = Scraper.SemAttempt.throws m) :
    ∀ (r idx : Nat) (res : Scraper2.Result2) (st : Cache.CacheState),
      env.download url idx = Scraper.DownloadOutcome.ok buf →
      (Scraper2.dlLoop2 env cfg url model idx (r + 1) res st).1.success = true ∧
      (Scraper2.dlLoop2 env cfg url model idx (r + 1) res st).1.geminiValidationStatus =
        Scraper2.GStatus.bypassed ∧
      (Scraper2.dlLoop2 env cfg url model idx (r + 1) res st).1.finalProcessedPath? =
        some ("/images/" ++ Cache.generateSeoFilename (Scraper2.bypassDummy2 model)) ∧
      Cache.getKey (Cache.normalizeKey model)
          (Scraper2.dlLoop2 env cfg url model idx (r + 1) res st).2.index =
        some (Cache.generateSeoFilename (Scraper2.bypassDummy2 model)) ∧
      Cache.generateSeoFilename (Scraper2.bypassDummy2 model) ∈
        (Scraper2.dlLoop2 env cfg url model idx (r + 1) res st).2.files ∧
      (Scraper2.dlLoop2 env cfg url model idx (r + 1) res st).2.indexOnDisk =
        (Scraper2.dlLoop2 env cfg url model idx (r + 1) res st).2.index := by
  intro r idx res st hdl
  simp only [Scraper2.dlLoop2, hdl, hbyp]
  rw [hval]
  rw [semLoop2_all_throws_bypass (env.semAttempt url) model cfg.geminiMaxRetries
    hthrow cfg.geminiMaxRetries 1
    { res with
        rawDownloadedPath? := (Cache.saveIntermediateImage model "raw-download" st).1,
        geminiInputPath? := (Cache.saveIntermediateImage model "raw-download" st).1 }
    (Cache.saveIntermediateImage model "raw-download" st).2 hgm]
  simp [Cache.saveImage, Scraper2.bypassDummy2, Scraper2.jsNot, jsBool,
    getKey_setKey, mem_writeFile]

theorem dlLoop2_throws_noBypass_run (env : Scraper2.Env2) (cfg : Scraper.Config)
    (url model : String) (buf : Img)
    (hbyp : cfg.bypassGeminiOnFailure = false) (hgm : 0 < cfg.geminiMaxRetries)
    (hval : Validator.validateImage buf = true)
    (hthrow : ∀ i, ∃ m, env.semAttempt url i = Scraper.SemAttempt.throws m) :
    ∀ (r idx : Nat) (res : Scraper2.Result2) (st : Cache.CacheState),
      env.download url idx = Scraper.DownloadOutcome.ok buf →
      (Scraper2.dlLoop2 env cfg url model idx (r + 1) res st).1.success = res.success ∧
      (Scraper2.dlLoop2 env cfg url model idx (r + 1) res st).1.geminiValidationStatus =
        Scraper2.GStatus.failedToValidate ∧
      (∃ m, (Scraper2.dlLoop2 env cfg url model idx (r + 1) res st).1.error? =
        some ("LLM validation failed after " ++ toString cfg.geminiMaxRetries ++
          " attempts: " ++ m)) ∧
      (Scraper2.dlLoop2 env cfg url model idx (r + 1) res st).2.index = st.index ∧
      (Scraper2.dlLoop2 env cfg url model idx (r + 1) res st).2.indexOnDisk =
        st.indexOnDisk := by
  intro r idx res st hdl
  obtain ⟨m, hm⟩ := semLoop2_all_throws_noBypass (env.semAttempt url) model
    cfg.geminiMaxRetries hthrow cfg.geminiMaxRetries 1
    { res with
        rawDownloadedPath? := (Cache.saveIntermediateImage model "raw-download" st).1,
        geminiInputPath? := (Cache.saveIntermediateImage model "raw-download" st).1 }
    (Cache.saveIntermediateImage model "raw-download" st).2 hgm
  simp only [Scraper2.dlLoop2, hdl, hbyp]
  rw [hval]
  rw [hm]
  refine ⟨by simp, by simp, ⟨m, by simp⟩, by simp [Cache.saveIntermediateImage],
    by simp [Cache.saveIntermediateImage]⟩

/-- C4: in the diagnostic scraper revision, when the download decodes, the
bytes pass structural validation, and every semantic-validation attempt
throws, then with the bypass flag enabled the candidate succeeds — the
result is tagged `bypassed`, the placeholder verdict is normalized and
cached (the SEO filename is written and the index gains the entry under
the normalized request model, persisted to disk) — while with the flag
disabled the candidate fails with the validation-unavailable error, tagged
`failed_to_validate`, and neither the index nor its on-disk copy changes. -/
theorem c4_bypass_policy_on_thrown_faults :
    (∀ (env : Scraper2.Env2) (cfg : Scraper.Config) (url model srcName : String)
        (st : Cache.CacheState) (buf : Img)
        (out : Scraper2.Result2 × Cache.CacheState),
      0 < cfg.downloadMaxRetries → 0 < cfg.geminiMaxRetries →
      cfg.bypassGeminiOnFailure = true →
      env.download url 1 = Scraper.DownloadOutcome.ok buf →
      Validator.validateImage buf = true →
      (∀ i, ∃ m, env.semAttempt url i = Scraper.SemAttempt.throws m) →
      out = Scraper2.downloadAndValidate env cfg url model srcName st →
      out.1.success = true ∧
      out.1.geminiValidationStatus = Scraper2.GStatus.bypassed ∧
      out.1.finalProcessedPath? =
        some ("/images/" ++ Cache.generateSeoFilename (Scraper2.bypassDummy2 model)) ∧
      Cache.getKey (Cache.normalizeKey model) out.2.index =
        some (Cache.generateSeoFilename (Scraper2.bypassDummy2 model)) ∧
      Cache.generateSeoFilename (Scraper2.bypassDummy2 model) ∈ out.2.files ∧
      out.2.indexOnDisk = out.2.index) ∧
    (∀ (env : Scraper2.Env2) (cfg : Scraper.Config) (url model srcName : String)
        (st : Cache.CacheState) (buf : Img)
        (out : Scraper2.Result2 × Cache.CacheState),
      0 < cfg.downloadMaxRetries → 0 < cfg.geminiMaxRetries →
      cfg.bypassGeminiOnFailure = false →
      env.download url 1 = Scraper.DownloadOutcome.ok buf →
      Validator.validateImage buf = true →
      (∀ i, ∃ m, env.semAttempt url i = Scraper.SemAttempt.throws m) →
      out = Scraper2.downloadAndValidate env cfg url model srcName st →
      out.1.success = false ∧
      out.1.geminiValidationStatus = Scraper2.GStatus.failedToValidate ∧
      (∃ m, out.1.error? = some ("LLM validation failed after " ++
        toString cfg.geminiMaxRetries ++ " attempts: " ++ m)) ∧
      out.2.index = st.index ∧
      out.2.indexOnDisk = st.indexOnDisk) := by
  constructor
  · intro env cfg url model srcName st buf out hdm hgm hbyp hdl hval hthrow hout
    subst hout
    unfold Scraper2.downloadAndValidate
    obtain ⟨r, hr⟩ : ∃ r, cfg.downloadMaxRetries = r + 1 :=
      ⟨cfg.downloadMaxRetries - 1, by omega⟩
    rw [hr]
    exact dlLoop2_throws_bypass_run env cfg url model buf hbyp hgm hval hthrow
      r 1 _ st hdl
  · intro env cfg url model srcName st buf out hdm hgm hbyp hdl hval hthrow hout
    subst hout
    unfold Scraper2.downloadAndValidate
    obtain ⟨r, hr⟩ : ∃ r, cfg.downloadMaxRetries = r + 1 :=
      ⟨cfg.downloadMaxRetries - 1, by omega⟩
    rw [hr]
    obtain ⟨h1, h2, h3, h4, h5⟩ := dlLoop2_throws_noBypass_run env cfg url model
      buf hbyp hgm hval hthrow r 1
      { success := false, model? := some model, source? := some srcName,
        geminiValidationStatus := .na, originalImageUrl? := some url }
      st hdl
    exact ⟨h1, h2, h3, h4, h5⟩

/-- The world of the C4 witness: downloads decode to the all-white image
and every semantic attempt throws the hard-timeout error. -/
def throwEnv : Scraper2.Env2 :=
  { download := fun _ _ => Scraper.DownloadOutcome.ok whiteImg,
    semAttempt := fun _ _ =>
      Scraper.SemAttempt.throws "Gemini API call timed out after 15000ms" }

set_option maxRecDepth 4000 in
/-- Witness for C4 at concrete inputs, on both sides of the flag. -/
theorem c4_bypass_policy_on_thrown_faults_witness :
    ((Scraper2.downloadAndValidate throwEnv bypassConfig "u" "Lems Primal 3"
        "SearchEngine" emptyCache).1.success = true ∧
     (Scraper2.downloadAndValidate throwEnv bypassConfig "u" "Lems Primal 3"
        "SearchEngine" emptyCache).1.geminiValidationStatus =
       Scraper2.GStatus.bypassed ∧
     (Scraper2.downloadAndValidate throwEnv bypassConfig "u" "Lems Primal 3"
        "SearchEngine" emptyCache).1.finalProcessedPath? =
       some ("/images/" ++
         Cache.generateSeoFilename (Scraper2.bypassDummy2 "Lems Primal 3")) ∧
     Cache.getKey (Cache.normalizeKey "Lems Primal 3")
         (Scraper2.downloadAndValidate throwEnv bypassConfig "u" "Lems Primal 3"
           "SearchEngine" emptyCache).2.index =
       some (Cache.generateSeoFilename (Scraper2.bypassDummy2 "Lems Primal 3")) ∧
     Cache.generateSeoFilename (Scraper2.bypassDummy2 "Lems Primal 3") ∈
       (Scraper2.downloadAndValidate throwEnv bypassConfig "u" "Lems Primal 3"
         "SearchEngine" emptyCache).2.files ∧
     (Scraper2.downloadAndValidate throwEnv bypassConfig "u" "Lems Primal 3"
        "SearchEngine" emptyCache).2.indexOnDisk =
       (Scraper2.downloadAndValidate throwEnv bypassConfig "u" "Lems Primal 3"
        "SearchEngine" emptyCache).2.index) ∧
    ((Scraper2.downloadAndValidate throwEnv baseConfig "u" "Lems Primal 3"
        "SearchEngine" emptyCache).1.success = false ∧
     (Scraper2.downloadAndValidate throwEnv baseConfig "u" "Lems Primal 3"
        "SearchEngine" emptyCache).1.geminiValidationStatus =
       Scraper2.GStatus.failedToValidate ∧
     (∃ m, (Scraper2.downloadAndValidate throwEnv baseConfig "u" "Lems Primal 3"
        "SearchEngine" emptyCache).1.error? =
       some ("LLM validation failed after " ++
         toString baseConfig.geminiMaxRetries ++ " attempts: " ++ m)) ∧
     (Scraper2.downloadAndValidate throwEnv baseConfig "u" "Lems Primal 3"
        "SearchEngine" emptyCache).2.index = emptyCache.index ∧
     (Scraper2.downloadAndValidate throwEnv baseConfig "u" "Lems Primal 3"
        "SearchEngine" emptyCache).2.indexOnDisk = emptyCache.indexOnDisk) :=
  ⟨c4_bypass_policy_on_thrown_faults.1 throwEnv bypassConfig "u" "Lems Primal 3"
      "SearchEngine" emptyCache whiteImg _ (by decide) (by decide) rfl rfl
      (by decide) (fun _ => ⟨"Gemini API call timed out after 15000ms", rfl⟩) rfl,
   c4_bypass_policy_on_thrown_faults.2 throwEnv baseConfig "u" "Lems Primal 3"
      "SearchEngine" emptyCache whiteImg _ (by decide) (by decide) rfl rfl
      (by decide) (fun _ => ⟨"Gemini API call timed out after 15000ms", rfl⟩) rfl⟩

end ProductImageScraper
